import Mathlib

/-!
Shallow embedding of the appointment scheduling and preference-graph core of
the telegram-appointment-bot repository.

Timestamps are modelled as minutes (a `Nat`): the calendar date of a
timestamp `t` is `t / 1440` (minutes per day), mirroring
`func.date(Appointment.start_time)`; the hard-coded business hours
09:00-17:00 of `check_availability` become the window
`[day*1440 + 540, day*1440 + 1020)`.

Relational rows (`Customer`, `Staff`, `Service`, `Appointment`) are Lean
structures; the session-scoped database is a `DB` record of lists.  Each
service method of `app/services/appointment_service.py` becomes a function
`DB → ... → DB × Except String α`: the returned `DB` is the committed state
and the `Except` the (re-raised) outcome.  Graph (Neo4j) state is a `Graph`
record of node-id lists and edge lists; the Cypher statements of
`app/core/graph_db.py` become functions `Graph → ... → Graph`.
-/

/-- Appointment status enumeration, from `AppointmentStatus` in
`app/models/schemas.py` (pending, confirmed, cancelled, completed,
no_show, rescheduled). -/
inductive Status where
  | pending
  | confirmed
  | cancelled
  | completed
  | noShow
  | rescheduled
deriving DecidableEq, Repr

/-- A customer row (only the identity matters for the claims). -/
structure Customer where
  id : Nat
deriving DecidableEq, Repr

/-- A staff row: identity and active flag, from `Staff` in
`app/core/database.py`. -/
structure Staff where
  id : Nat
  isActive : Bool
deriving DecidableEq, Repr

/-- A service row: identity, duration in minutes, active flag. -/
structure Service where
  id : Nat
  duration : Nat
  isActive : Bool
deriving DecidableEq, Repr

/-- An appointment row, from `Appointment` in `app/core/database.py`:
start/end timestamps in minutes, status, optional notes. -/
structure Appointment where
  id : Nat
  customerId : Nat
  staffId : Nat
  serviceId : Nat
  startTime : Nat
  endTime : Nat
  status : Status
  notes : Option String
deriving DecidableEq, Repr

/-- The relational store visible to one service call: rows plus the id the
next inserted appointment receives. -/
structure DB where
  customers : List Customer
  staffs : List Staff
  services : List Service
  appointments : List Appointment
  nextId : Nat
deriving Repr

/-- An appointment status counts against availability iff it is confirmed or
rescheduled (`Appointment.status.in_([CONFIRMED, RESCHEDULED])`). -/
def activeStatus (s : Status) : Bool :=
  s == .confirmed || s == .rescheduled

/-- The half-open interval overlap test of the spec's glossary and of
`_filter_available_slots`: `slot.start < appt.end and slot.end > appt.start`. -/
def overlaps (s1 e1 s2 e2 : Nat) : Bool :=
  s1 < e2 && e1 > s2

/-- The commit-time conflict condition of `book_appointment`,
`_find_available_staff` and `reschedule_appointment` (lines 344-347,
409-412, 478-481 of `app/services/appointment_service.py`):
`(a.start <= s AND a.end > s) OR (a.start < e AND a.end >= e)`.
Note this is NOT the glossary overlap test. -/
def conflictCond (a : Appointment) (s e : Nat) : Bool :=
  (a.startTime ≤ s && a.endTime > s) || (a.startTime < e && a.endTime ≥ e)

/-- The conflict query of `book_appointment` / `reschedule_appointment`:
some appointment of the staff member, with status confirmed or rescheduled,
other than `excludeId` when given, satisfies `conflictCond`. -/
def hasConflict (db : DB) (staffId s e : Nat) (excludeId : Option Nat) : Bool :=
  db.appointments.any fun a =>
    a.staffId == staffId &&
    (match excludeId with
     | some i => a.id != i
     | none => true) &&
    activeStatus a.status &&
    conflictCond a s e

/-- Loop body of `_generate_time_slots`: starting from `cur`, emit the slot
`[cur, cur + d)` while it still fits before `close`, advancing `cur` by the
fixed 30-minute granularity. -/
def generateTimeSlotsAux (close d cur : Nat) : List (Nat × Nat) :=
  if h : cur + d ≤ close then
    (cur, cur + d) :: generateTimeSlotsAux close d (cur + 30)
  else
    []
termination_by close + 30 - cur
decreasing_by omega

/-- Embedding of `_generate_time_slots(date, start_time, end_time, duration)` with the
window already converted to minutes: slots of length `d` every 30 minutes
from `o` while they fit before `c`. -/
def generateTimeSlots (o c d : Nat) : List (Nat × Nat) :=
  generateTimeSlotsAux c d o

/-- Embedding of `_filter_available_slots(slots, appointments)`: keep a slot iff no given
appointment overlaps it (`slot.start < appt.end and slot.end > appt.start`). -/
def filterAvailableSlots (slots : List (Nat × Nat)) (appts : List Appointment) :
    List (Nat × Nat) :=
  slots.filter fun sl => appts.all fun a => !(overlaps sl.1 sl.2 a.startTime a.endTime)

/-- The result record of `check_availability` (`AvailabilityResponse` in
`app/models/schemas.py`): the aggregate `available_slots` list and the
per-staff `staff_availability` map (modelled as an association list). -/
structure AvailabilityResponse where
  availableSlots : List (Nat × Nat)
  staffAvailability : List (Nat × List (Nat × Nat))
deriving DecidableEq, Repr

/-- The appointment filter of `check_availability`'s query (lines 241-250):
same calendar date, status confirmed or rescheduled, same service, and —
only when a staff id was supplied — that staff member. -/
def availabilityScope (day serviceId : Nat) (staffId : Option Nat)
    (a : Appointment) : Bool :=
  a.startTime / 1440 == day &&
  activeStatus a.status &&
  a.serviceId == serviceId &&
  (match staffId with
   | some st => a.staffId == st
   | none => true)

/-- The effective duration of `check_availability`: the Python default
`duration = duration or service.duration` falls back to the service
duration when the argument is absent or 0 (falsy). -/
def effDur (durOpt : Option Nat) (service : Service) : Nat :=
  match durOpt with
  | some d => if d == 0 then service.duration else d
  | none => service.duration

/-- Embedding of `check_availability(date, service_id, staff_id?, duration?)`:
look up the service, default the duration, generate slots for the
hard-coded 09:00-17:00 window, query the existing appointments in scope,
filter the aggregate list against all of them, and, when no staff was
given, filter per active staff member against that staff member's share of
the same appointments. -/
def checkAvailability (db : DB) (day serviceId : Nat) (staffId : Option Nat)
    (durOpt : Option Nat) : Except String AvailabilityResponse :=
  match db.services.find? (fun s => s.id == serviceId) with
  | none => .error "Service not found"
  | some service =>
    let dur := effDur durOpt service
    let slots := generateTimeSlots (day * 1440 + 540) (day * 1440 + 1020) dur
    let existing := db.appointments.filter (availabilityScope day serviceId staffId)
    let availableSlots := filterAvailableSlots slots existing
    let staffAvailability :=
      match staffId with
      | some _ => []
      | none =>
        (db.staffs.filter (fun st => st.isActive)).map fun st =>
          (st.id, filterAvailableSlots slots (existing.filter (fun a => a.staffId == st.id)))
    .ok { availableSlots := availableSlots, staffAvailability := staffAvailability }

/-- The `available_slots` component of `check_availability`, or `[]` when the
call raises. -/
def availableSlotsOf (db : DB) (day serviceId : Nat) (staffId : Option Nat)
    (durOpt : Option Nat) : List (Nat × Nat) :=
  match checkAvailability db day serviceId staffId durOpt with
  | .ok r => r.availableSlots
  | .error _ => []

/-- The `staff_availability` component of `check_availability`, or `[]` when
the call raises. -/
def staffAvailabilityOf (db : DB) (day serviceId : Nat) (staffId : Option Nat)
    (durOpt : Option Nat) : List (Nat × List (Nat × Nat)) :=
  match checkAvailability db day serviceId staffId durOpt with
  | .ok r => r.staffAvailability
  | .error _ => []

/-- Embedding of `_find_available_staff`: scan the active staff in listing order and
return the first whose confirmed/rescheduled appointments raise no
`conflictCond` conflict with `[s, e)`. -/
def findAvailableStaff (db : DB) (s e : Nat) : Option Nat :=
  ((db.staffs.filter (fun st => st.isActive)).find? fun st =>
      !(hasConflict db st.id s e none)).map (fun st => st.id)

/-- Embedding of `book_appointment(customer_id, service_id, start, end, staff_id?, notes?)`.
The two extra booleans model the graph side of the call: `graphEnabled` is
`self.graph_db is not None`, and `graphOk` is whether
`graph_db.create_appointment_node` succeeds.  The function returns the
final relational state together with the outcome.  The source wraps the
whole body in `try/except` with `session.rollback()` and `raise`: a
pre-commit failure leaves the store unchanged, while a graph failure after
`session.commit()` re-raises but cannot undo the committed row (rolling
back a fresh transaction is a no-op), so the committed state is kept and
the error is surfaced. -/
def bookAppointment (db : DB) (customerId serviceId startT endT : Nat)
    (staffIdOpt : Option Nat) (notes : Option String)
    (graphEnabled graphOk : Bool) : DB × Except String Appointment :=
  match db.customers.find? (fun c => c.id == customerId),
        db.services.find? (fun s => s.id == serviceId) with
  | some _, some _ =>
    let staffRes := match staffIdOpt with
      | some st => some st
      | none => findAvailableStaff db startT endT
    match staffRes with
    | none => (db, .error "No staff available for this time slot")
    | some st =>
      if hasConflict db st startT endT none then
        (db, .error "Time slot is not available")
      else
        let appt : Appointment :=
          { id := db.nextId, customerId := customerId, staffId := st,
            serviceId := serviceId, startTime := startT, endTime := endT,
            status := .confirmed, notes := notes }
        let db' := { db with appointments := db.appointments ++ [appt],
                             nextId := db.nextId + 1 }
        if graphEnabled && !graphOk then
          (db', .error "graph write failed")
        else
          (db', .ok appt)
  | _, _ => (db, .error "Customer or service not found")

/-- Replace every appointment with the given id (the primary key, unique in
the store) by `appt'`; models mutating the row fetched by
`session.get(Appointment, appointment_id)` and committing. -/
def replaceAppt (l : List Appointment) (apptId : Nat) (appt' : Appointment) :
    List Appointment :=
  l.map fun a => if a.id == apptId then appt' else a

/-- Embedding of `cancel_appointment(appointment_id, reason?)`: look up the appointment
(`NotFound` otherwise) and set status cancelled with the reason recorded;
the late-cancellation policy check only logs a warning and never blocks,
so it does not appear in the state transition. -/
def cancelAppointment (db : DB) (apptId : Nat) : DB × Except String Bool :=
  match db.appointments.find? (fun a => a.id == apptId) with
  | none => (db, .error "Appointment not found")
  | some appt =>
    let appt' := { appt with status := Status.cancelled }
    ({ db with appointments := replaceAppt db.appointments apptId appt' }, .ok true)

/-- Embedding of `reschedule_appointment(appointment_id, new_datetime)`: look up the
appointment and its service, recompute `new_end = new_start +
service.duration`, re-run the `conflictCond` query scoped to the same staff
member and excluding this appointment, and on success commit the new
interval under status rescheduled. -/
def rescheduleAppointment (db : DB) (apptId newStart : Nat) :
    DB × Except String Appointment :=
  match db.appointments.find? (fun a => a.id == apptId) with
  | none => (db, .error "Appointment not found")
  | some appt =>
    match db.services.find? (fun s => s.id == appt.serviceId) with
    | none => (db, .error "Service of appointment not found")
    | some service =>
      let newEnd := newStart + service.duration
      if hasConflict db appt.staffId newStart newEnd (some apptId) then
        (db, .error "New time slot is not available")
      else
        let appt' := { appt with startTime := newStart, endTime := newEnd,
                                 status := Status.rescheduled }
        ({ db with appointments := replaceAppt db.appointments apptId appt' },
         .ok appt')

/-- A `PREFERS` edge of the graph store: customer → service with accumulated
strength and interaction count. -/
structure PrefEdge where
  customer : Nat
  service : Nat
  strength : ℚ
  count : Nat
deriving DecidableEq, Repr

/-- A `WORKED_WITH` edge: customer → staff with running-average satisfaction
and count. -/
structure WorkEdge where
  customer : Nat
  staff : Nat
  satisfaction : ℚ
  count : Nat
deriving DecidableEq, Repr

/-- A `SPECIALIZES_IN` edge: staff → service with an optional expertise
level (the Cypher reads `COALESCE(specializes.expertise_level, 1)`). -/
structure SpecEdge where
  staff : Nat
  service : Nat
  expertise : Option ℚ
deriving DecidableEq, Repr

/-- The Neo4j graph state: node-id sets (as lists) for each label the
queries `MATCH` on, and the edge lists the claims concern.  `COMPLEMENTS`
edges are directed pairs (`create_service_complements` inserts both
directions). -/
structure Graph where
  customers : List Nat
  services : List Nat
  staffNodes : List Nat
  apptNodes : List Nat
  prefers : List PrefEdge
  complements : List (Nat × Nat)
  specializes : List SpecEdge
  workedWith : List WorkEdge
deriving DecidableEq, Repr

/-- The graph with no nodes and no edges. -/
def Graph.empty : Graph :=
  { customers := [], services := [], staffNodes := [], apptNodes := [],
    prefers := [], complements := [], specializes := [], workedWith := [] }

/-- The customer has a `PREFERS` edge to the service
(`(c)-[:PREFERS]->(s)` pattern test). -/
def hasPref (g : Graph) (cid sid : Nat) : Bool :=
  g.prefers.any fun e => e.customer == cid && e.service == sid

/-- First `PREFERS` edge of the pair, as `(strength, count)`; the graph
schema keeps at most one such edge per pair (`MERGE`). -/
def lookupPref (l : List PrefEdge) (cid sid : Nat) : Option (ℚ × Nat) :=
  (l.find? fun e => e.customer == cid && e.service == sid).map
    fun e => (e.strength, e.count)

/-- Accumulated preference strength of the pair, 0 when the edge is absent. -/
def prefStrength (g : Graph) (cid sid : Nat) : ℚ :=
  ((lookupPref g.prefers cid sid).map Prod.fst).getD 0

/-- The `MERGE (c)-[r:PREFERS]->(s) SET r.strength = COALESCE(r.strength,0)
+ $satisfaction, r.count = COALESCE(r.count,0) + 1` update on the edge
list: bump the matched edge, or create `(satisfaction, 1)` when absent. -/
def upsertPref (cid sid : Nat) (sat : ℚ) : List PrefEdge → List PrefEdge
  | [] => [{ customer := cid, service := sid, strength := sat, count := 1 }]
  | e :: rest =>
    if e.customer == cid && e.service == sid then
      { e with strength := e.strength + sat, count := e.count + 1 } :: rest
    else
      e :: upsertPref cid sid sat rest

/-- Embedding of `update_customer_preferences(customer_id, service_id, satisfaction)`
(`app/core/graph_db.py` lines 125-140): the query `MATCH`es the customer
and service nodes (doing nothing when either is absent) and then upserts
the `PREFERS` edge. -/
def updateCustomerPreferences (g : Graph) (cid sid : Nat) (sat : ℚ) : Graph :=
  if cid ∈ g.customers ∧ sid ∈ g.services then
    { g with prefers := upsertPref cid sid sat g.prefers }
  else
    g

/-- The `MERGE (c)-[r:WORKED_WITH]->(staff) SET r.satisfaction =
(COALESCE(r.satisfaction,0) + $satisfaction) / 2, r.count =
COALESCE(r.count,0) + 1` update on the edge list. -/
def upsertWork (cid staffId : Nat) (sat : ℚ) : List WorkEdge → List WorkEdge
  | [] => [{ customer := cid, staff := staffId, satisfaction := (0 + sat) / 2, count := 1 }]
  | e :: rest =>
    if e.customer == cid && e.staff == staffId then
      { e with satisfaction := (e.satisfaction + sat) / 2, count := e.count + 1 } :: rest
    else
      e :: upsertWork cid staffId sat rest

/-- Embedding of `update_appointment_feedback(appointment_id, customer_id, staff_id,
satisfaction)` (`app/core/graph_db.py` lines 261-285): `MATCH`es the
appointment, customer and staff nodes (doing nothing when one is absent)
and upserts the `WORKED_WITH` edge; the satisfaction it also sets on the
appointment node is not modelled.  It never touches `PREFERS` edges. -/
def updateAppointmentFeedback (g : Graph) (apptId cid staffId : Nat) (sat : ℚ) :
    Graph :=
  if apptId ∈ g.apptNodes ∧ cid ∈ g.customers ∧ staffId ∈ g.staffNodes then
    { g with workedWith := upsertWork cid staffId sat g.workedWith }
  else
    g

/-- Embedding of `complete_appointment(appointment_id, satisfaction, feedback?)`:
look up the appointment (`NotFound` otherwise), set status completed
(appending feedback to the notes), commit, and — when a graph database is
attached — run `update_customer_preferences` then
`update_appointment_feedback` with the satisfaction score. -/
def completeAppointment (db : DB) (g : Graph) (apptId : Nat) (sat : ℚ)
    (feedback : Option String) (graphEnabled : Bool) :
    (DB × Graph) × Except String Bool :=
  match db.appointments.find? (fun a => a.id == apptId) with
  | none => ((db, g), .error "Appointment not found")
  | some appt =>
    let appt' := { appt with
      status := Status.completed,
      notes := match feedback with
        | some fb => some ((appt.notes.getD "") ++ "\nFeedback: " ++ fb)
        | none => appt.notes }
    let db' := { db with appointments := replaceAppt db.appointments apptId appt' }
    let g' :=
      if graphEnabled then
        updateAppointmentFeedback
          (updateCustomerPreferences g appt.customerId appt.serviceId sat)
          apptId appt.customerId appt.staffId sat
      else
        g
    ((db', g'), .ok true)

/-- Insert into a list sorted by descending score (second component),
keeping earlier elements first on ties; used to model `ORDER BY score
DESC`. -/
def insertDesc (x : Nat × ℚ) : List (Nat × ℚ) → List (Nat × ℚ)
  | [] => [x]
  | y :: ys => if x.2 ≤ y.2 then y :: insertDesc x ys else x :: y :: ys

/-- Insertion sort by descending score, modelling `ORDER BY score DESC`. -/
def sortDesc : List (Nat × ℚ) → List (Nat × ℚ)
  | [] => []
  | x :: xs => insertDesc x (sortDesc xs)

/-- The similar-customer test of `get_service_recommendations`:
`(c)-[:PREFERS]->(:Service)<-[:PREFERS]-(similar)` with `similar.id <>
c.id` — another customer sharing at least one preferred service. -/
def isSimilar (g : Graph) (cid c2 : Nat) : Bool :=
  c2 != cid &&
  g.prefers.any fun e1 =>
    e1.customer == cid && g.prefers.any fun e2 =>
      e2.customer == c2 && e2.service == e1.service

/-- Collaborative score of a candidate service in
`get_service_recommendations`: the sum of the similar customers' `PREFERS`
strengths toward it plus the number of similar customers preferring it
(`sum(r.strength) + count(similar)`). -/
def similarCustomers (g : Graph) (cid : Nat) : List Nat :=
  g.customers.filter (isSimilar g cid)

/-- Collaborative score of a candidate service in
`get_service_recommendations`: the sum of the similar customers' `PREFERS`
strengths toward it plus the number of similar customers preferring it
(`sum(r.strength) + count(similar)`). -/
def serviceScore (g : Graph) (cid sid : Nat) : ℚ :=
  ((g.prefers.filter fun e =>
      (similarCustomers g cid).contains e.customer && e.service == sid).map
        (fun e => e.strength)).sum
  + (((similarCustomers g cid).filter fun c2 =>
      g.prefers.any fun e => e.customer == c2 && e.service == sid).length : ℚ)

/-- The `recommended` candidates of `get_service_recommendations`: services
preferred by some similar customer, `WHERE NOT (c)-[:PREFERS]->(recommended)`. -/
def recCandidates (g : Graph) (cid : Nat) : List Nat :=
  g.services.filter fun s' =>
    ((similarCustomers g cid).any fun c2 =>
      g.prefers.any fun e => e.customer == c2 && e.service == s') &&
    !(hasPref g cid s')

/-- The `complement` candidates of `get_service_recommendations`:
`COMPLEMENTS` of the customer's preferred services,
`WHERE NOT (c)-[:PREFERS]->(complement)` (services already produced by the
`recommended` pattern are not repeated). -/
def compCandidates (g : Graph) (cid : Nat) : List Nat :=
  g.services.filter fun s' =>
    (g.prefers.any fun e =>
      e.customer == cid && g.complements.contains (e.service, s')) &&
    !(hasPref g cid s') &&
    !((recCandidates g cid).contains s')

/-- Embedding of `get_service_recommendations(customer_id, limit)` (`app/core/graph_db.py`
lines 143-174): when the customer node matches, the candidate services are
the `recommended` and `complement` candidates; rows are scored, sorted by
descending score and truncated to `limit`.  An unmatched customer yields no
rows. -/
def getServiceRecommendations (g : Graph) (cid limitN : Nat) : List (Nat × ℚ) :=
  if cid ∈ g.customers then
    (sortDesc ((recCandidates g cid ++ compCandidates g cid).map
      fun s' => (s', serviceScore g cid s'))).take limitN
  else
    []

/-- The candidate staff of `get_staff_recommendations`: staff nodes with a
`SPECIALIZES_IN` edge to the service. -/
def staffCandidates (g : Graph) (sid : Nat) : List Nat :=
  g.staffNodes.filter fun st =>
    g.specializes.any fun e => e.staff == st && e.service == sid

/-- Score of a candidate staff member:
`COALESCE(worked.satisfaction, 0) + COALESCE(specializes.expertise_level, 1)`. -/
def staffScore (g : Graph) (sid cid st : Nat) : ℚ :=
  (((g.workedWith.find? fun w =>
      w.customer == cid && w.staff == st).map
        (fun w => w.satisfaction)).getD 0)
  + ((((g.specializes.find? fun e =>
      e.staff == st && e.service == sid).map
        (fun e => e.expertise)).getD none).getD 1)

/-- Embedding of `get_staff_recommendations(service_id, customer_id)`
(`app/core/graph_db.py` lines 176-191): when the service node matches, the
candidates are exactly the staff nodes with a `SPECIALIZES_IN` edge to it,
scored and sorted by descending score.  An unmatched service yields no
rows. -/
def getStaffRecommendations (g : Graph) (sid cid : Nat) : List (Nat × ℚ) :=
  if sid ∈ g.services then
    sortDesc ((staffCandidates g sid).map fun st => (st, staffScore g sid cid st))
  else
    []

/-- The spec's no-overlap invariant over a relational state: no two distinct
appointments of the same staff member, both with status confirmed or
rescheduled, have intersecting `[start, end)` intervals. -/
def noOverlapInv (db : DB) : Prop :=
  ∀ a ∈ db.appointments, ∀ b ∈ db.appointments,
    a.id ≠ b.id → a.staffId = b.staffId →
    activeStatus a.status = true → activeStatus b.status = true →
    overlaps a.startTime a.endTime b.startTime b.endTime = false

/-- The statuses the spec calls terminal. -/
def terminalStatus (s : Status) : Bool :=
  s == .cancelled || s == .completed || s == .noShow

/-- Status of the appointment with the given id, when present. -/
def statusOf (db : DB) (apptId : Nat) : Option Status :=
  (db.appointments.find? (fun a => a.id == apptId)).map (fun a => a.status)

/-- Accumulated strength of the first `PREFERS` edge of the pair in an edge
list, 0 when absent. -/
def strengthOf (l : List PrefEdge) (cid sid : Nat) : ℚ :=
  ((lookupPref l cid sid).map Prod.fst).getD 0

/- ### Helper lemmas -/

theorem generateTimeSlotsAux_spec (close d : Nat) : ∀ cur i,
    i < (generateTimeSlotsAux close d cur).length →
      (generateTimeSlotsAux close d cur)[i]? = some (cur + 30 * i, cur + 30 * i + d) ∧
      cur + 30 * i + d ≤ close := by
  intro cur
  induction cur using generateTimeSlotsAux.induct close d with
  | case1 cur h ih =>
    intro i hi
    rw [generateTimeSlotsAux] at hi ⊢
    simp only [h, dite_true] at hi ⊢
    match i with
    | 0 => simpa using h
    | j + 1 =>
      simp only [List.length_cons, Nat.add_lt_add_iff_right] at hi
      obtain ⟨h1, h2⟩ := ih j hi
      simp only [List.getElem?_cons_succ]
      constructor
      · rw [h1, show cur + 30 + 30 * j = cur + 30 * (j + 1) from by omega]
      · omega
  | case2 cur h =>
    intro i hi
    rw [generateTimeSlotsAux] at hi
    simp [h] at hi

theorem mem_filterAvailableSlots (slots : List (Nat × Nat))
    (appts : List Appointment) (sl : Nat × Nat) :
    sl ∈ filterAvailableSlots slots appts ↔
      sl ∈ slots ∧ ∀ a ∈ appts, overlaps sl.1 sl.2 a.startTime a.endTime = false := by
  simp [filterAvailableSlots, List.mem_filter, List.all_eq_true]

theorem mem_availableSlotsOf (db : DB) (day serviceId : Nat)
    (staffId : Option Nat) (durOpt : Option Nat) (svc : Service)
    (hsvc : db.services.find? (fun s => s.id == serviceId) = some svc)
    (sl : Nat × Nat) :
    sl ∈ availableSlotsOf db day serviceId staffId durOpt ↔
      sl ∈ generateTimeSlots (day * 1440 + 540) (day * 1440 + 1020) (effDur durOpt svc) ∧
      ∀ a ∈ db.appointments, availabilityScope day serviceId staffId a = true →
        overlaps sl.1 sl.2 a.startTime a.endTime = false := by
  unfold availableSlotsOf checkAvailability
  rw [hsvc]
  simp only []
  rw [mem_filterAvailableSlots]
  constructor
  · rintro ⟨hmem, hall⟩
    refine ⟨hmem, fun a ha hscope => hall a ?_⟩
    exact List.mem_filter.mpr ⟨ha, hscope⟩
  · rintro ⟨hmem, hall⟩
    refine ⟨hmem, fun a ha => ?_⟩
    obtain ⟨ha', hscope⟩ := List.mem_filter.mp ha
    exact hall a ha' hscope

theorem replaceAppt_find? (l : List Appointment) (i : Nat) (x appt : Appointment)
    (h : l.find? (fun a => a.id == i) = some appt) (hx : (x.id == i) = true) :
    (replaceAppt l i x).find? (fun a => a.id == i) = some x := by
  induction l with
  | nil => simp [List.find?] at h
  | cons a t ih =>
    by_cases ha : (a.id == i) = true
    · simp [replaceAppt, List.find?, ha, hx]
    · rw [List.find?_cons_of_neg _ (by simpa using ha)] at h
      simp only [replaceAppt, List.map_cons]
      rw [if_neg (by simpa using ha)]
      rw [List.find?_cons_of_neg _ (by simpa using ha)]
      exact ih h

theorem lookupPref_upsert_self (cid sid : Nat) (sat : ℚ) (l : List PrefEdge) :
    lookupPref (upsertPref cid sid sat l) cid sid =
      some (match lookupPref l cid sid with
        | some p => (p.1 + sat, p.2 + 1)
        | none => (sat, 1)) := by
  induction l with
  | nil => simp [upsertPref, lookupPref, List.find?]
  | cons e t ih =>
    by_cases he : (e.customer == cid && e.service == sid) = true
    · rw [upsertPref, if_pos he]
      unfold lookupPref
      rw [List.find?_cons, List.find?_cons]
      simp only [he, if_true]
      simp [he]
    · rw [upsertPref, if_neg he]
      unfold lookupPref at ih ⊢
      rw [List.find?_cons, List.find?_cons]
      simp only [he, if_false, Bool.false_eq_true]
      exact ih

theorem lookupPref_upsert_other (cid sid : Nat) (sat : ℚ) (l : List PrefEdge)
    (cid' sid' : Nat) (h : ¬(cid' = cid ∧ sid' = sid)) :
    lookupPref (upsertPref cid sid sat l) cid' sid' = lookupPref l cid' sid' := by
  induction l with
  | nil =>
    unfold upsertPref lookupPref
    have : ((cid == cid' && sid == sid') : Bool) = false := by
      simp only [Bool.and_eq_false_iff, beq_eq_false_iff_ne, ne_eq]
      by_contra hc
      push_neg at hc
      exact h ⟨hc.1.symm, hc.2.symm⟩
    simp [List.find?, this]
  | cons e t ih =>
    by_cases he : (e.customer == cid && e.service == sid) = true
    · rw [upsertPref, if_pos he]
      unfold lookupPref
      rw [List.find?_cons, List.find?_cons]
      by_cases he' : (e.customer == cid' && e.service == sid') = true
      · exfalso
        simp only [Bool.and_eq_true, beq_iff_eq] at he he'
        exact h ⟨he'.1.symm.trans he.1, he'.2.symm.trans he.2⟩
      · have he'' : ((e.customer == cid' && e.service == sid') : Bool) = false :=
          Bool.eq_false_iff.mpr he'
        simp only [he'', if_false, Bool.false_eq_true]
    · rw [upsertPref, if_neg he]
      unfold lookupPref at ih ⊢
      rw [List.find?_cons, List.find?_cons]
      by_cases he' : (e.customer == cid' && e.service == sid') = true
      · simp only [he', if_true]
      · have he'' : ((e.customer == cid' && e.service == sid') : Bool) = false :=
          Bool.eq_false_iff.mpr he'
        simp only [he'', if_false, Bool.false_eq_true]
        exact ih

theorem mem_insertDesc (x y : Nat × ℚ) (l : List (Nat × ℚ)) :
    y ∈ insertDesc x l ↔ y = x ∨ y ∈ l := by
  induction l with
  | nil => simp [insertDesc]
  | cons z t ih =>
    by_cases hz : x.2 ≤ z.2
    · simp only [insertDesc, if_pos hz, List.mem_cons, ih]
      tauto
    · simp only [insertDesc, if_neg hz, List.mem_cons]

theorem mem_sortDesc (y : Nat × ℚ) (l : List (Nat × ℚ)) :
    y ∈ sortDesc l ↔ y ∈ l := by
  induction l with
  | nil => simp [sortDesc]
  | cons z t ih =>
    simp only [sortDesc, mem_insertDesc, List.mem_cons, ih]

/- ### Concrete stores used by counterexamples and failing-input evaluations -/

/-- Store with one confirmed appointment `[600, 660)` for staff 7. -/
def dbC1 : DB :=
  { customers := [⟨1⟩], staffs := [⟨7, true⟩], services := [⟨10, 60, true⟩],
    appointments := [{ id := 1, customerId := 1, staffId := 7, serviceId := 10,
                       startTime := 600, endTime := 660,
                       status := .confirmed, notes := none }],
    nextId := 2 }

/-- Store with no appointments at all. -/
def dbC5 : DB :=
  { customers := [⟨1⟩], staffs := [⟨7, true⟩], services := [⟨10, 60, true⟩],
    appointments := [], nextId := 1 }

/-- Store with a confirmed appointment `[600, 630)` for staff 7 and a second
appointment `[900, 960)` for the same staff, booked for the 120-minute
service 11. -/
def dbC6 : DB :=
  { customers := [⟨1⟩], staffs := [⟨7, true⟩], services := [⟨11, 120, true⟩],
    appointments :=
      [{ id := 1, customerId := 1, staffId := 7, serviceId := 11,
         startTime := 600, endTime := 630, status := .confirmed, notes := none },
       { id := 2, customerId := 1, staffId := 7, serviceId := 11,
         startTime := 900, endTime := 960, status := .confirmed, notes := none }],
    nextId := 3 }

/- ### Claim theorems -/

/-- C7: every slot produced by the slot generator for window `[o, c)` and
duration `d` is the half-open interval `[o + 30*i, o + 30*i + d)` at its
index `i` — so the slots are ordered by start, consecutive starts are
exactly 30 minutes apart beginning at `o`, every slot has length `d`, and
every slot lies entirely within `[o, c)`; the generator is a pure function
of its arguments. -/
theorem C7_slot_generator_shape (o c d i : Nat)
    (hi : i < (generateTimeSlots o c d).length) :
    (generateTimeSlots o c d)[i]? = some (o + 30 * i, o + 30 * i + d) ∧
    o ≤ o + 30 * i ∧ o + 30 * i + d ≤ c := by
  obtain ⟨h1, h2⟩ := generateTimeSlotsAux_spec c d o i hi
  exact ⟨h1, Nat.le_add_right o (30 * i), h2⟩

theorem C7_slot_generator_shape_witness :
    0 < (generateTimeSlots 540 1020 60).length ∧
    ((generateTimeSlots 540 1020 60)[0]? = some (540 + 30 * 0, 540 + 30 * 0 + 60) ∧
     540 ≤ 540 + 30 * 0 ∧ 540 + 30 * 0 + 60 ≤ 1020) := by
  have hlen : 0 < (generateTimeSlots 540 1020 60).length := by
    simp [generateTimeSlots, generateTimeSlotsAux]
  exact ⟨hlen, C7_slot_generator_shape 540 1020 60 0 hlen⟩

/-- C1 (failing input): the commit-time conflict check of
`book_appointment` tests only `(a.start <= s AND a.end > s) OR (a.start < e
AND a.end >= e)` and misses a requested interval that strictly contains an
existing appointment.  Booking `[570, 690)` for staff 7 against the store
holding the confirmed `[600, 660)` succeeds, and the resulting store
violates the no-overlap invariant even though the two intervals overlap
under the glossary test. -/
theorem C1_containment_overlap_booked :
    ((bookAppointment dbC1 1 10 570 690 (some 7) none false true).2).toOption =
      some { id := 2, customerId := 1, staffId := 7, serviceId := 10,
             startTime := 570, endTime := 690,
             status := .confirmed, notes := none } ∧
    overlaps 570 690 600 660 = true ∧
    ¬ noOverlapInv (bookAppointment dbC1 1 10 570 690 (some 7) none false true).1 := by
  refine ⟨by decide, by decide, ?_⟩
  intro hinv
  have := hinv
    { id := 2, customerId := 1, staffId := 7, serviceId := 10,
      startTime := 570, endTime := 690, status := .confirmed, notes := none }
    (by decide)
    { id := 1, customerId := 1, staffId := 7, serviceId := 10,
      startTime := 600, endTime := 660, status := .confirmed, notes := none }
    (by decide) (by decide) (by decide) (by decide) (by decide)
  exact absurd this (by decide)

/-- C5 (failing input): `book_appointment` performs no `end > start`
validation.  With an empty appointment table, booking start 600 / end 540
(10:00 with a 09:00 end) succeeds and commits a confirmed appointment whose
end precedes its start, instead of failing with a validation error. -/
theorem C5_end_before_start_accepted :
    ((bookAppointment dbC5 1 10 600 540 (some 7) none false true).2).toOption =
      some { id := 1, customerId := 1, staffId := 7, serviceId := 10,
             startTime := 600, endTime := 540,
             status := .confirmed, notes := none } ∧
    ((bookAppointment dbC5 1 10 600 540 (some 7) none false true).1).appointments.any
      (fun a => a.endTime ≤ a.startTime) = true := by
  exact ⟨by decide, by decide⟩

/-- C6 (failing input): `reschedule_appointment` reuses the defective
conflict condition, so moving appointment 2 (service 11, 120 minutes) to
start 570 — whose new interval `[570, 690)` strictly contains the other
confirmed appointment `[600, 630)` of the same staff member — succeeds with
status rescheduled instead of failing with `SlotUnavailable`, and the
resulting store violates the no-overlap invariant. -/
theorem C6_reschedule_containment_missed :
    ((rescheduleAppointment dbC6 2 570).2).toOption =
      some { id := 2, customerId := 1, staffId := 7, serviceId := 11,
             startTime := 570, endTime := 690,
             status := .rescheduled, notes := none } ∧
    overlaps 570 690 600 630 = true ∧
    ¬ noOverlapInv (rescheduleAppointment dbC6 2 570).1 := by
  refine ⟨by decide, by decide, ?_⟩
  intro hinv
  have := hinv
    { id := 2, customerId := 1, staffId := 7, serviceId := 11,
      startTime := 570, endTime := 690, status := .rescheduled, notes := none }
    (by decide)
    { id := 1, customerId := 1, staffId := 7, serviceId := 11,
      startTime := 600, endTime := 630, status := .confirmed, notes := none }
    (by decide) (by decide) (by decide) (by decide) (by decide)
  exact absurd this (by decide)

/-- Store holding a single cancelled (terminal) appointment. -/
def dbC10 : DB :=
  { customers := [⟨1⟩], staffs := [⟨7, true⟩], services := [⟨11, 120, true⟩],
    appointments := [{ id := 1, customerId := 1, staffId := 7, serviceId := 11,
                       startTime := 600, endTime := 660,
                       status := .cancelled, notes := none }],
    nextId := 2 }

/-- The cancelled appointment row of `dbC10`. -/
def apptC10 : Appointment :=
  { id := 1, customerId := 1, staffId := 7, serviceId := 11,
    startTime := 600, endTime := 660, status := .cancelled, notes := none }

/-- C10 (counterexample): the lifecycle operations never inspect the current
status, so an appointment in the terminal state cancelled is moved to
completed by `complete_appointment`, contradicting the claim that no
lifecycle operation changes a terminal appointment's status. -/
theorem C10_terminal_escaped :
    statusOf dbC10 1 = some .cancelled ∧
    terminalStatus .cancelled = true ∧
    statusOf (completeAppointment dbC10 Graph.empty 1 1 none false).1.1 1 =
      some .completed := by
  refine ⟨by decide, by decide, by decide⟩

/-- C10 (amended): none of the lifecycle operations guards on the current
status.  For every appointment in the store — terminal or not —
`cancel_appointment` sets status cancelled, `complete_appointment` sets
status completed, and `reschedule_appointment` sets status rescheduled
whenever its service resolves and the new interval passes the conflict
query. -/
theorem C10_lifecycle_never_guards (db : DB) (g : Graph) (apptId newStart : Nat)
    (sat : ℚ) (fb : Option String) (ge : Bool) (appt : Appointment)
    (hfind : db.appointments.find? (fun a => a.id == apptId) = some appt) :
    statusOf (cancelAppointment db apptId).1 apptId = some .cancelled ∧
    statusOf (completeAppointment db g apptId sat fb ge).1.1 apptId = some .completed ∧
    (∀ svc : Service,
      db.services.find? (fun s => s.id == appt.serviceId) = some svc →
      hasConflict db appt.staffId newStart (newStart + svc.duration) (some apptId) = false →
      statusOf (rescheduleAppointment db apptId newStart).1 apptId = some .rescheduled) := by
  have hid : (appt.id == apptId) = true := by
    simpa using List.find?_some hfind
  refine ⟨?_, ?_, ?_⟩
  · unfold cancelAppointment
    rw [hfind]
    unfold statusOf
    rw [replaceAppt_find? db.appointments apptId _ appt hfind (by simpa using hid)]
    rfl
  · unfold completeAppointment
    rw [hfind]
    unfold statusOf
    rw [replaceAppt_find? db.appointments apptId _ appt hfind (by simpa using hid)]
    rfl
  · intro svc hsvc hconf
    unfold rescheduleAppointment
    simp only [hfind, hsvc, hconf, Bool.false_eq_true, if_false]
    unfold statusOf
    rw [replaceAppt_find? db.appointments apptId _ appt hfind (by simpa using hid)]
    rfl

theorem C10_lifecycle_never_guards_witness :
    statusOf (cancelAppointment dbC10 1).1 1 = some .cancelled ∧
    statusOf (completeAppointment dbC10 Graph.empty 1 1 none false).1.1 1 = some .completed ∧
    statusOf (rescheduleAppointment dbC10 1 570).1 1 = some .rescheduled := by
  have h := C10_lifecycle_never_guards dbC10 Graph.empty 1 570 1 none false apptC10
    (by decide)
  exact ⟨h.1, h.2.1, h.2.2 ⟨11, 120, true⟩ (by decide) (by decide)⟩

/-- Store with a customer, a service, one active staff member and no
appointments, used to exercise the graph-failure path of booking. -/
def dbC2 : DB :=
  { customers := [⟨1⟩], staffs := [⟨7, true⟩], services := [⟨10, 60, true⟩],
    appointments := [], nextId := 1 }

/-- C2 (counterexample): with the graph store attached and its write
failing, booking `[600, 660)` commits the relational row (one appointment
was appended) and yet the call surfaces an error rather than returning the
persisted confirmed appointment — the claimed implication fails at this
input. -/
theorem C2_graph_failure_surfaced :
    ¬ ((((bookAppointment dbC2 1 10 600 660 (some 7) none true false).1).appointments.length
          = dbC2.appointments.length + 1) →
       ((bookAppointment dbC2 1 10 600 660 (some 7) none true false).2).toOption.map
          (fun a => a.status) = some .confirmed) := by
  decide

/-- C2 (amended): when booking reaches the relational commit (customer and
service found, staff resolved, no conflict detected) and the subsequent
graph write fails, the exception propagates to the caller as an error,
while the committed appointment row remains in the relational store (the
post-commit rollback cannot undo it). -/
theorem C2_graph_failure_error_row_kept (db : DB) (cid sid s e st : Nat)
    (notes : Option String) (cust : Customer) (svc : Service)
    (hcust : db.customers.find? (fun c => c.id == cid) = some cust)
    (hsvc : db.services.find? (fun s' => s'.id == sid) = some svc)
    (hconf : hasConflict db st s e none = false) :
    (bookAppointment db cid sid s e (some st) notes true false).2 =
      .error "graph write failed" ∧
    { id := db.nextId, customerId := cid, staffId := st, serviceId := sid,
      startTime := s, endTime := e, status := Status.confirmed,
      notes := notes } ∈
      (bookAppointment db cid sid s e (some st) notes true false).1.appointments := by
  unfold bookAppointment
  rw [hcust, hsvc]
  simp only [hconf, Bool.false_eq_true, if_false, Bool.and_self, Bool.not_false,
    if_true, List.mem_append, List.mem_singleton]
  exact ⟨trivial, Or.inr trivial⟩

theorem C2_graph_failure_error_row_kept_witness :
    (bookAppointment dbC2 1 10 600 660 (some 7) none true false).2 =
      .error "graph write failed" ∧
    { id := dbC2.nextId, customerId := 1, staffId := 7, serviceId := 10,
      startTime := 600, endTime := 660, status := Status.confirmed,
      notes := none } ∈
      (bookAppointment dbC2 1 10 600 660 (some 7) none true false).1.appointments :=
  C2_graph_failure_error_row_kept dbC2 1 10 600 660 7 none ⟨1⟩ ⟨10, 60, true⟩
    (by decide) (by decide) (by decide)

/-- Store with two active staff members and one confirmed appointment
`[600, 660)` for staff 1 only (service 10). -/
def dbC3 : DB :=
  { customers := [⟨1⟩], staffs := [⟨1, true⟩, ⟨2, true⟩],
    services := [⟨10, 60, true⟩],
    appointments := [{ id := 1, customerId := 1, staffId := 1, serviceId := 10,
                       startTime := 600, endTime := 660,
                       status := .confirmed, notes := none }],
    nextId := 2 }

/-- C3 (counterexample): with no staff specified, the aggregate
`available_slots` of `check_availability` is filtered against ALL retrieved
appointments, not unioned per staff member: the slot `[600, 660)` is free
for the active staff member 2, so the claimed union semantics would include
it, yet it is absent from `available_slots` because staff 1 is booked then. -/
theorem C3_union_refuted :
    ¬ (((600, 660) ∈ availableSlotsOf dbC3 0 10 none none) ↔
       (∃ st ∈ dbC3.staffs, st.isActive = true ∧
         ∀ a ∈ dbC3.appointments, availabilityScope 0 10 none a = true →
           a.staffId = st.id →
           overlaps (600, 660).1 (600, 660).2 a.startTime a.endTime = false)) := by
  intro h
  have hnotin : ((600, 660) : Nat × Nat) ∉ availableSlotsOf dbC3 0 10 none none := by
    intro hin
    have h2 := ((mem_availableSlotsOf dbC3 0 10 none none ⟨10, 60, true⟩
      (by decide) (600, 660)).mp hin).2
    have := h2 { id := 1, customerId := 1, staffId := 1, serviceId := 10,
                 startTime := 600, endTime := 660,
                 status := .confirmed, notes := none } (by decide) (by decide)
    exact absurd this (by decide)
  exact hnotin (h.mpr ⟨⟨2, true⟩, by decide, by decide, by decide⟩)

/-- C3 (amended): with no staff specified, a slot is in `available_slots`
iff it is a generated slot and NO appointment in the query's scope (same
date, status confirmed or rescheduled, same service — any staff member)
overlaps it; the union over staff members exists only in the separate
`staff_availability` map. -/
theorem C3_aggregate_is_filtered_by_all (db : DB) (day sid : Nat)
    (durOpt : Option Nat) (svc : Service)
    (hsvc : db.services.find? (fun s => s.id == sid) = some svc)
    (sl : Nat × Nat) :
    sl ∈ availableSlotsOf db day sid none durOpt ↔
      sl ∈ generateTimeSlots (day * 1440 + 540) (day * 1440 + 1020) (effDur durOpt svc) ∧
      ∀ a ∈ db.appointments, availabilityScope day sid none a = true →
        overlaps sl.1 sl.2 a.startTime a.endTime = false :=
  mem_availableSlotsOf db day sid none durOpt svc hsvc sl

theorem C3_aggregate_is_filtered_by_all_witness :
    dbC3.services.find? (fun s => s.id == 10) = some ⟨10, 60, true⟩ ∧
    (((600, 660) ∈ availableSlotsOf dbC3 0 10 none none) ↔
      ((600, 660) ∈ generateTimeSlots (0 * 1440 + 540) (0 * 1440 + 1020)
          (effDur none ⟨10, 60, true⟩) ∧
       ∀ a ∈ dbC3.appointments, availabilityScope 0 10 none a = true →
         overlaps (600, 660).1 (600, 660).2 a.startTime a.endTime = false)) :=
  ⟨by decide,
   C3_aggregate_is_filtered_by_all dbC3 0 10 none ⟨10, 60, true⟩ (by decide) (600, 660)⟩

/-- Store where staff 1's only confirmed appointment `[600, 660)` belongs
to service 99, while availability is being checked for service 10. -/
def dbC4 : DB :=
  { customers := [⟨1⟩], staffs := [⟨1, true⟩],
    services := [⟨10, 60, true⟩, ⟨99, 30, true⟩],
    appointments := [{ id := 1, customerId := 1, staffId := 1, serviceId := 99,
                       startTime := 600, endTime := 660,
                       status := .confirmed, notes := none }],
    nextId := 2 }

/-- C4 (counterexample): with staff 1 specified, the availability query
filters on `service_id == requested service`, so staff 1's confirmed
appointment `[600, 660)` for the OTHER service 99 is invisible: the
overlapping slot `[600, 660)` is reported available for service 10,
contradicting the claimed "regardless of which service" semantics. -/
theorem C4_cross_service_invisible :
    ¬ (((600, 660) ∈ availableSlotsOf dbC4 0 10 (some 1) none) ↔
       (∀ a ∈ dbC4.appointments, a.staffId = 1 → a.startTime / 1440 = 0 →
         activeStatus a.status = true →
         overlaps (600, 660).1 (600, 660).2 a.startTime a.endTime = false)) := by
  intro h
  have hgen : ((600, 660) : Nat × Nat) ∈
      generateTimeSlots (0 * 1440 + 540) (0 * 1440 + 1020) (effDur none ⟨10, 60, true⟩) := by
    have hg : generateTimeSlots 540 1020 60 =
        [(540, 600), (570, 630), (600, 660), (630, 690), (660, 720), (690, 750),
         (720, 780), (750, 810), (780, 840), (810, 870), (840, 900), (870, 930),
         (900, 960), (930, 990), (960, 1020)] := by
      simp [generateTimeSlots, generateTimeSlotsAux]
    show ((600, 660) : Nat × Nat) ∈ generateTimeSlots 540 1020 60
    rw [hg]
    decide
  have hin : ((600, 660) : Nat × Nat) ∈ availableSlotsOf dbC4 0 10 (some 1) none :=
    (mem_availableSlotsOf dbC4 0 10 (some 1) none ⟨10, 60, true⟩
      (by decide) (600, 660)).mpr ⟨hgen, by decide⟩
  have := h.mp hin { id := 1, customerId := 1, staffId := 1, serviceId := 99,
                     startTime := 600, endTime := 660,
                     status := .confirmed, notes := none }
    (by decide) (by decide) (by decide) (by decide)
  exact absurd this (by decide)

/-- C4 (amended): with a staff id specified, a generated slot appears in
`available_slots` iff it does not overlap any appointment of that staff
member on that date with status confirmed or rescheduled AND booked for the
requested service — appointments of the same staff member for other
services are not consulted. -/
theorem C4_availability_same_service_only (db : DB) (day sid stId : Nat)
    (durOpt : Option Nat) (svc : Service)
    (hsvc : db.services.find? (fun s => s.id == sid) = some svc)
    (sl : Nat × Nat) :
    sl ∈ availableSlotsOf db day sid (some stId) durOpt ↔
      sl ∈ generateTimeSlots (day * 1440 + 540) (day * 1440 + 1020) (effDur durOpt svc) ∧
      ∀ a ∈ db.appointments, availabilityScope day sid (some stId) a = true →
        overlaps sl.1 sl.2 a.startTime a.endTime = false :=
  mem_availableSlotsOf db day sid (some stId) durOpt svc hsvc sl

theorem C4_availability_same_service_only_witness :
    dbC4.services.find? (fun s => s.id == 10) = some ⟨10, 60, true⟩ ∧
    (((600, 660) ∈ availableSlotsOf dbC4 0 10 (some 1) none) ↔
      ((600, 660) ∈ generateTimeSlots (0 * 1440 + 540) (0 * 1440 + 1020)
          (effDur none ⟨10, 60, true⟩) ∧
       ∀ a ∈ dbC4.appointments, availabilityScope 0 10 (some 1) a = true →
         overlaps (600, 660).1 (600, 660).2 a.startTime a.endTime = false)) :=
  ⟨by decide,
   C4_availability_same_service_only dbC4 0 10 1 none ⟨10, 60, true⟩ (by decide) (600, 660)⟩

theorem updateAppointmentFeedback_prefers (g : Graph) (apptId cid staffId : Nat)
    (sat : ℚ) :
    (updateAppointmentFeedback g apptId cid staffId sat).prefers = g.prefers := by
  unfold updateAppointmentFeedback
  split <;> rfl

theorem completeAppointment_prefers (db : DB) (g : Graph) (apptId : Nat)
    (sat : ℚ) (fb : Option String) (appt : Appointment)
    (hfind : db.appointments.find? (fun a => a.id == apptId) = some appt) :
    ((completeAppointment db g apptId sat fb true).1.2).prefers =
      (updateCustomerPreferences g appt.customerId appt.serviceId sat).prefers := by
  unfold completeAppointment
  simp only [hfind, if_true]
  exact updateAppointmentFeedback_prefers _ _ _ _ _

/-- C8: completing an appointment exactly once with satisfaction `sat`
(graph store attached, customer and service nodes present) changes the
customer-to-service `PREFERS` edge by exactly `strength += sat` and
`count += 1`, creating the edge as `(sat, 1)` when absent; every other
customer/service pair's edge is untouched, and for `sat ≥ 0` (the spec's
satisfaction range) the accumulated strength never decreases. -/
theorem C8_preference_accumulation (db : DB) (g : Graph) (apptId : Nat)
    (sat : ℚ) (fb : Option String) (appt : Appointment)
    (hfind : db.appointments.find? (fun a => a.id == apptId) = some appt)
    (hc : appt.customerId ∈ g.customers) (hs : appt.serviceId ∈ g.services) :
    lookupPref ((completeAppointment db g apptId sat fb true).1.2).prefers
        appt.customerId appt.serviceId =
      some (match lookupPref g.prefers appt.customerId appt.serviceId with
        | some p => (p.1 + sat, p.2 + 1)
        | none => (sat, 1)) ∧
    (∀ cid' sid', ¬(cid' = appt.customerId ∧ sid' = appt.serviceId) →
      lookupPref ((completeAppointment db g apptId sat fb true).1.2).prefers cid' sid' =
        lookupPref g.prefers cid' sid') ∧
    (0 ≤ sat →
      strengthOf g.prefers appt.customerId appt.serviceId ≤
        strengthOf ((completeAppointment db g apptId sat fb true).1.2).prefers
          appt.customerId appt.serviceId) := by
  have hpref : ((completeAppointment db g apptId sat fb true).1.2).prefers =
      upsertPref appt.customerId appt.serviceId sat g.prefers := by
    rw [completeAppointment_prefers db g apptId sat fb appt hfind]
    unfold updateCustomerPreferences
    rw [if_pos ⟨hc, hs⟩]
  rw [hpref]
  refine ⟨lookupPref_upsert_self _ _ _ _,
    fun cid' sid' hne => lookupPref_upsert_other _ _ _ _ _ _ hne, fun hsat => ?_⟩
  unfold strengthOf
  rw [lookupPref_upsert_self]
  rcases hlk : lookupPref g.prefers appt.customerId appt.serviceId with _ | p
  · simpa using hsat
  · simp only [Option.map_some', Option.getD_some]
    linarith

/-- Store with a single confirmed appointment for customer 1, service 10,
staff 7, used to exercise the completion flow. -/
def dbC8 : DB :=
  { customers := [⟨1⟩], staffs := [⟨7, true⟩], services := [⟨10, 60, true⟩],
    appointments := [{ id := 1, customerId := 1, staffId := 7, serviceId := 10,
                       startTime := 600, endTime := 660,
                       status := .confirmed, notes := none }],
    nextId := 2 }

/-- Graph with the matching customer/service/staff nodes and no `PREFERS`
edge yet. -/
def gC8 : Graph :=
  { customers := [1], services := [10, 20], staffNodes := [7], apptNodes := [1],
    prefers := [], complements := [], specializes := [], workedWith := [] }

theorem C8_preference_accumulation_witness :
    lookupPref ((completeAppointment dbC8 gC8 1 1 none true).1.2).prefers 1 10 =
      some (match lookupPref gC8.prefers 1 10 with
        | some p => (p.1 + 1, p.2 + 1)
        | none => ((1 : ℚ), 1)) ∧
    lookupPref ((completeAppointment dbC8 gC8 1 1 none true).1.2).prefers 1 20 =
      lookupPref gC8.prefers 1 20 ∧
    strengthOf gC8.prefers 1 10 ≤
      strengthOf ((completeAppointment dbC8 gC8 1 1 none true).1.2).prefers 1 10 := by
  have h := C8_preference_accumulation dbC8 gC8 1 1 none
    { id := 1, customerId := 1, staffId := 7, serviceId := 10,
      startTime := 600, endTime := 660, status := .confirmed, notes := none }
    (by decide) (by decide) (by decide)
  exact ⟨h.1, h.2.1 1 20 (by decide), h.2.2 (by norm_num)⟩

/-- C9: `get_service_recommendations` never returns a service the customer
already has a `PREFERS` edge to (both candidate sources are restricted by
`WHERE NOT (c)-[:PREFERS]->(...)`); `get_staff_recommendations` returns
only staff with a `SPECIALIZES_IN` edge to the requested service; and on
the empty graph both return the empty list rather than an error. -/
theorem C9_recommendation_guarantees (g : Graph) (cid sid custId limitN : Nat) :
    (∀ p ∈ getServiceRecommendations g cid limitN, hasPref g cid p.1 = false) ∧
    (∀ q ∈ getStaffRecommendations g sid custId,
      ∃ e ∈ g.specializes, e.staff = q.1 ∧ e.service = sid) ∧
    getServiceRecommendations Graph.empty cid limitN = [] ∧
    getStaffRecommendations Graph.empty sid custId = [] := by
  refine ⟨?_, ?_, ?_, ?_⟩
  · intro p hp
    unfold getServiceRecommendations at hp
    by_cases hc : cid ∈ g.customers
    · rw [if_pos hc] at hp
      have hp2 := List.take_subset _ _ hp
      rw [mem_sortDesc] at hp2
      obtain ⟨s', hs', hpe⟩ := List.mem_map.mp hp2
      rcases List.mem_append.mp hs' with h | h
      · unfold recCandidates at h
        have hcond := (List.mem_filter.mp h).2
        simp only [Bool.and_eq_true, Bool.not_eq_true'] at hcond
        rw [← hpe]
        exact hcond.2
      · unfold compCandidates at h
        have hcond := (List.mem_filter.mp h).2
        simp only [Bool.and_eq_true, Bool.not_eq_true'] at hcond
        rw [← hpe]
        exact hcond.1.2
    · rw [if_neg hc] at hp
      exact absurd hp (List.not_mem_nil p)
  · intro q hq
    unfold getStaffRecommendations at hq
    by_cases hs : sid ∈ g.services
    · rw [if_pos hs] at hq
      rw [mem_sortDesc] at hq
      obtain ⟨st, hst, hqe⟩ := List.mem_map.mp hq
      unfold staffCandidates at hst
      have hcond := (List.mem_filter.mp hst).2
      rw [List.any_eq_true] at hcond
      obtain ⟨e, he, hee⟩ := hcond
      simp only [Bool.and_eq_true, beq_iff_eq] at hee
      refine ⟨e, he, ?_, hee.2⟩
      rw [hee.1, ← hqe]
    · rw [if_neg hs] at hq
      exact absurd hq (List.not_mem_nil q)
  · unfold getServiceRecommendations
    rw [if_neg (by simp [Graph.empty])]
  · unfold getStaffRecommendations
    rw [if_neg (by simp [Graph.empty])]

/-- Graph used to instantiate the recommendation guarantees: customers 1
and 2 both prefer service 10, customer 2 also prefers service 20 (strength
3), and staff 5 specializes in service 10 with expertise 2. -/
def gC9 : Graph :=
  { customers := [1, 2], services := [10, 20], staffNodes := [5], apptNodes := [],
    prefers := [{ customer := 1, service := 10, strength := 1, count := 1 },
                { customer := 2, service := 10, strength := 1, count := 1 },
                { customer := 2, service := 20, strength := 3, count := 1 }],
    complements := [], specializes := [{ staff := 5, service := 10, expertise := some 2 }],
    workedWith := [] }

theorem C9_recommendation_guarantees_witness :
    hasPref gC9 1 20 = false ∧
    (∃ e ∈ gC9.specializes, e.staff = 5 ∧ e.service = 10) ∧
    getServiceRecommendations Graph.empty 1 5 = [] ∧
    getStaffRecommendations Graph.empty 10 1 = [] := by
  have h := C9_recommendation_guarantees gC9 1 10 1 5
  have hmem : (20, serviceScore gC9 1 20) ∈ getServiceRecommendations gC9 1 5 := by
    unfold getServiceRecommendations
    rw [if_pos (show (1 : Nat) ∈ gC9.customers by decide),
        show recCandidates gC9 1 ++ compCandidates gC9 1 = [20] from by decide]
    simp [sortDesc, insertDesc]
  have hmem2 : (5, staffScore gC9 10 1 5) ∈ getStaffRecommendations gC9 10 1 := by
    unfold getStaffRecommendations
    rw [if_pos (show (10 : Nat) ∈ gC9.services by decide),
        show staffCandidates gC9 10 = [5] from by decide]
    simp [sortDesc, insertDesc]
  exact ⟨h.1 _ hmem, h.2.1 _ hmem2, h.2.2.1, h.2.2.2⟩
